import Mathlib

/-!
Shallow embedding of the build-trigger / queue-resolution / completion-polling
core of the `harbor_jenkins_ci` scripts (`jenkins_upload_build.py`,
`jenkins_github_build.py`), together with theorems settling the spec claims.

Network interactions are modelled as explicit response sequences
(`Nat → ...`): the value at index `i` is what the `i`-th HTTP call of the
corresponding loop observes.  Unbounded `while` loops are modelled with a
fuel parameter; `none` means the fuel ran out with the loop still running.
All sleeps are irrelevant to the values computed and are dropped; wall-clock
time in the status-only completion wait is modelled as 10 seconds per loop
iteration (the `time.sleep(10)` at the end of each iteration).
-/

namespace HarborJenkins

/-- The `executable` object of a queue-item JSON response
(`{ number, url }`, either field possibly absent). -/
structure ExecutableJson where
  number : Option Nat
  url : Option String
deriving DecidableEq

/-- Body of `GET /queue/item/{n}/api/json`: the `executable` field is `none`
when the key is absent or JSON `null` (the code treats both alike:
`"executable" not in queue_data or queue_data["executable"] is None`). -/
structure QueueJson where
  executable : Option ExecutableJson
deriving DecidableEq

/-- Outcome of one HTTP GET on the queue endpoint as seen by
`get_queue_item_info`: a response with a status code and parsed body, or a
transport error (`requests` raised). -/
inductive QueueHttp where
  | response (statusCode : Nat) (body : QueueJson)
  | netError (msg : String)
deriving DecidableEq

/-- Return shape of `get_queue_item_info` (jenkins_upload_build.py:912):
`{"success": True, "data": ...}` or `{"success": False, "error": ...}` with
an optional `status_code` key. -/
inductive QueueInfoResult where
  | ok (data : QueueJson)
  | failure (error : String) (statusCode : Option Nat)
deriving DecidableEq

/-- `get_queue_item_info` of jenkins_upload_build.py (lines 912-947):
HTTP 200 → success with data; HTTP 404 → failure with `status_code = 404`;
any other status → failure with that `status_code`; a raised exception →
failure with no `status_code`. -/
def get_queue_item_info : QueueHttp → QueueInfoResult
  | .response 200 body => .ok body
  | .response 404 _ => .failure "队列项目已被移除" (some 404)
  | .response c _ => .failure ("HTTP " ++ toString c) (some c)
  | .netError e => .failure ("获取队列信息失败: " ++ e) none

/-- Loop body of `wait_for_build_start_by_queue`
(jenkins_upload_build.py:949-1005).  `resp i` is what the `i`-th poll of the
queue endpoint observes (0-based); the first argument is the current loop
index `i` of `for i in range(max_wait)`, the second the remaining
iterations.  Returns the resolved build number (or `none`) together with the
number of polls performed:
  * failure with `status_code == 404` → return `None` immediately;
  * any other failure → sleep 2 and continue;
  * success but `executable` absent/null → still queued, sleep 1, continue;
  * `executable` present: if `executable.get("number")` is truthy (present
    and nonzero) return it, else sleep 1 and continue. -/
def waitQueueLoop (resp : Nat → QueueHttp) : Nat → Nat → Option Nat × Nat
  | i, 0 => (none, i)
  | i, fuel+1 =>
    match get_queue_item_info (resp i) with
    | .failure _ (some 404) => (none, i+1)
    | .failure _ _ => waitQueueLoop resp (i+1) fuel
    | .ok data =>
      match data.executable with
      | none => waitQueueLoop resp (i+1) fuel
      | some ex =>
        match ex.number with
        | some n => if n ≠ 0 then (some n, i+1) else waitQueueLoop resp (i+1) fuel
        | none => waitQueueLoop resp (i+1) fuel

/-- `wait_for_build_start_by_queue(queue_item_number, max_wait=120)`
(jenkins_upload_build.py:949-1005): run the polling loop for at most
`max_wait` iterations starting at `i = 0`. -/
def wait_for_build_start_by_queue (resp : Nat → QueueHttp) (max_wait : Nat := 120) :
    Option Nat × Nat :=
  waitQueueLoop resp 0 max_wait

namespace GithubBuild

/-- `get_queue_item_info` of jenkins_github_build.py (lines 161-183): same as
the upload variant except the non-404 HTTP-error branch carries no
`status_code` key and the messages are English. -/
def get_queue_item_info : QueueHttp → QueueInfoResult
  | .response 200 body => .ok body
  | .response 404 _ => .failure "Queue item removed" (some 404)
  | .response c _ => .failure ("HTTP " ++ toString c) none
  | .netError e => .failure ("Failed to get queue info: " ++ e) none

/-- Loop body of `wait_for_build_start_by_queue` of jenkins_github_build.py
(lines 122-159); identical control flow to the upload variant (404 → `None`
immediately; other failure → retry; `executable.number` truthy → return). -/
def waitQueueLoop (resp : Nat → QueueHttp) : Nat → Nat → Option Nat × Nat
  | i, 0 => (none, i)
  | i, fuel+1 =>
    match GithubBuild.get_queue_item_info (resp i) with
    | .failure _ (some 404) => (none, i+1)
    | .failure _ _ => GithubBuild.waitQueueLoop resp (i+1) fuel
    | .ok data =>
      match data.executable with
      | none => GithubBuild.waitQueueLoop resp (i+1) fuel
      | some ex =>
        match ex.number with
        | some n =>
            if n ≠ 0 then (some n, i+1) else GithubBuild.waitQueueLoop resp (i+1) fuel
        | none => GithubBuild.waitQueueLoop resp (i+1) fuel

/-- `wait_for_build_start_by_queue` of jenkins_github_build.py:122-159 with
its default `max_wait = DEFAULT_QUEUE_TIMEOUT`. -/
def wait_for_build_start_by_queue (resp : Nat → QueueHttp) (max_wait : Nat := 120) :
    Option Nat × Nat :=
  GithubBuild.waitQueueLoop resp 0 max_wait

end GithubBuild

/-- Parsed body of `GET /job/{name}/{build}/api/json` as consumed by
`get_build_status` / the completion-wait loops; every field the code reads
with `.get(...)` is optional. `duration` and `timestamp` are milliseconds. -/
structure BuildInfoJson where
  building : Option Bool
  result : Option String
  duration : Option Nat
  url : Option String
  timestamp : Option Nat
  description : Option String
deriving DecidableEq

/-- Outcome of one `self.server.get_build_info(...)` call: parsed JSON or a
raised exception. -/
inductive BuildInfoFetch where
  | ok (info : BuildInfoJson)
  | error (msg : String)
deriving DecidableEq

/-- Return shape of `get_build_status` (jenkins_upload_build.py:354-369):
`{"success": True, "building": ..., "result": ..., "duration": ..., "url":
..., "timestamp": ..., "description": ...}` or `{"success": False,
"message": ...}`. -/
inductive BuildStatusResult where
  | ok (building : Bool) (result : Option String) (duration : Nat)
      (url : Option String) (timestamp : Option Nat) (description : String)
  | err (message : String)
deriving DecidableEq

/-- `get_build_status` (jenkins_upload_build.py:354-369): on a successful
fetch, `building` defaults to `False`, `duration` to `0`, `description` to
`""`; on an exception, a failure record with a message. -/
def get_build_status : BuildInfoFetch → BuildStatusResult
  | .ok info =>
      .ok (info.building.getD false) info.result (info.duration.getD 0)
        info.url info.timestamp (info.description.getD "")
  | .error e => .err ("获取构建状态失败: " ++ e)

/-- One console-tail step of `monitor_build` (jenkins_upload_build.py:406-412):
`new_output = console_output[last_log_position:]`; if it is nonempty the
cursor advances to `len(console_output)`, otherwise it is unchanged.
Returns (new text, new cursor). -/
def consoleTailStep (cursor : Nat) (text : String) : String × Nat :=
  let newOutput := text.drop cursor
  if newOutput ≠ "" then (newOutput, text.length) else (newOutput, cursor)

/-- What one complete `monitor_build` run reports: the returned boolean
(`build_result == "SUCCESS"`), the final `build_result`, whether the loop was
left through the status-fetch-failure `break`, the number of build-status
polls, the number of console-output fetch attempts, and the final value of
`last_log_position`. -/
structure MonitorOutcome where
  success : Bool
  buildResult : Option String
  exitOnError : Bool
  polls : Nat
  consoleFetches : Nat
  finalCursor : Nat
deriving DecidableEq

/-- The `while not build_complete` loop of `monitor_build`
(jenkins_upload_build.py:386-423).  `status i` is what the `i`-th
`get_build_info` call observes, `console i` the `i`-th console fetch
(`none` = the fetch raised, cursor untouched).  Arguments: current poll
index, current `last_log_position`, console fetches so far, fuel.  Each
iteration: fetch status — on failure print and `break` (returning
`build_result == "SUCCESS"` with `build_result` still `None`); on success
record completeness, fetch and tail the console (also in the final,
completing iteration), then either exit or loop. `none` = fuel exhausted
with the build still running. -/
def monitorLoop (status : Nat → BuildInfoFetch) (console : Nat → Option String) :
    Nat → Nat → Nat → Nat → Option MonitorOutcome
  | _, _, _, 0 => none
  | i, cursor, cf, fuel+1 =>
    match get_build_status (status i) with
    | .err _ => some ⟨false, none, true, i+1, cf, cursor⟩
    | .ok building result _ _ _ _ =>
      let cursor' :=
        match console i with
        | none => cursor
        | some text => (consoleTailStep cursor text).2
      if building then monitorLoop status console (i+1) cursor' (cf+1) fuel
      else some ⟨result == some "SUCCESS", result, false, i+1, cf+1, cursor'⟩

/-- `monitor_build` (jenkins_upload_build.py:371-434): run the monitoring
loop from poll 0 with cursor `last_log_position = 0`. -/
def monitor_build (status : Nat → BuildInfoFetch) (console : Nat → Option String)
    (fuel : Nat) : Option MonitorOutcome :=
  monitorLoop status console 0 0 0 fuel

/-- A build-info observation with `building = true` (a running build). -/
def buildingInfo : BuildInfoFetch := .ok ⟨some true, none, none, none, none, none⟩

/-- A build-info observation of a finished build with the given `result`. -/
def doneInfo (r : String) : BuildInfoFetch :=
  .ok ⟨some false, some r, some 12000, some "http://j/job/x/7/", some 1, some ""⟩

/-- Status sequence for C2: three `building=true` observations, then a
`building=false, result="SUCCESS"` observation, then arbitrary further
re-queries `rest`. -/
def c2status (rest : Nat → BuildInfoFetch) : Nat → BuildInfoFetch
  | 0 => buildingInfo
  | 1 => buildingInfo
  | 2 => buildingInfo
  | 3 => doneInfo "SUCCESS"
  | i+4 => rest i

/-- Return shape of the status-only branch of `wait_for_build_complete`
(jenkins_upload_build.py:783-826): a completed-build record
(`success = True`, with the remote `result`, `duration` in seconds, `url`,
`timestamp`, `description`, `build_number`) or a timeout record
(`success = False`, with the timeout error and `build_number`). -/
inductive WaitCompleteResult where
  | done (result : Option String) (duration : Nat) (url : Option String)
      (timestamp : Option Nat) (description : String) (buildNumber : Nat)
  | timeout (maxWait : Nat) (buildNumber : Nat)
deriving DecidableEq

/-- The `"success"` entry of a status-only completion-wait result: `True`
exactly on the completed-build record, `False` on the timeout record. -/
def WaitCompleteResult.success : WaitCompleteResult → Bool
  | .done _ _ _ _ _ _ => true
  | .timeout _ _ => false

/-- The `while time.time() - start_time < max_wait` loop of the status-only
branch of `wait_for_build_complete` (jenkins_upload_build.py:789-826).
Elapsed wall-clock time after `i` full iterations is modelled as `10 * i`
seconds (each iteration ends in `time.sleep(10)`), so iteration `i` runs iff
`10 * i < max_wait`.  Each iteration: fetch build info — an exception is
printed and the loop continues; `building` false → return the completed
record (duration is `duration_ms / 1000`); `building` true → print progress
and continue.  Leaving the loop returns the timeout record.  The second
component counts `get_build_info` calls (polls). -/
def waitCompleteLoop (status : Nat → BuildInfoFetch) (buildNumber max_wait : Nat) :
    Nat → Nat → WaitCompleteResult × Nat
  | i, 0 => (.timeout max_wait buildNumber, i)
  | i, fuel+1 =>
    if 10 * i < max_wait then
      match status i with
      | .ok info =>
        if info.building.getD false then
          waitCompleteLoop status buildNumber max_wait (i+1) fuel
        else
          (.done info.result (info.duration.getD 0 / 1000) info.url info.timestamp
            (info.description.getD "") buildNumber, i+1)
      | .error _ => waitCompleteLoop status buildNumber max_wait (i+1) fuel
    else (.timeout max_wait buildNumber, i)

/-- The status-only (`show_logs=False`) branch of `wait_for_build_complete`
(jenkins_upload_build.py:783-826).  Fuel `max_wait` is enough: the loop runs
at most `⌈max_wait / 10⌉ ≤ max_wait` iterations before the deadline check
fails, and running out of fuel yields the same timeout record anyway. -/
def wait_for_build_complete_status_only (status : Nat → BuildInfoFetch)
    (buildNumber : Nat) (max_wait : Nat := 1800) : WaitCompleteResult × Nat :=
  waitCompleteLoop status buildNumber max_wait 0 max_wait

/-- Return shape of the log-streaming (`show_logs=True`) branch of
`wait_for_build_complete` (jenkins_upload_build.py:759-782): the boolean
returned by `monitor_build`, plus fields re-queried from `get_build_info`
afterwards; if that re-query raises, `success = False` with an error. -/
structure WaitLogsResult where
  success : Bool
  result : Option String
  duration : Nat
  url : Option String
  error : Option String
  buildNumber : Nat
deriving DecidableEq

/-- The log-streaming (`show_logs=True`) branch of `wait_for_build_complete`
(jenkins_upload_build.py:759-782): run `monitor_build`, then one final
`get_build_info` (`postQuery`). `none` = `monitor_build`'s (unbounded) loop
still running after `fuel` iterations. -/
def wait_for_build_complete_logs (status : Nat → BuildInfoFetch)
    (console : Nat → Option String) (postQuery : BuildInfoFetch)
    (buildNumber fuel : Nat) : Option WaitLogsResult :=
  match monitor_build status console fuel with
  | none => none
  | some out =>
    match postQuery with
    | .ok info =>
        some ⟨out.success, info.result, info.duration.getD 0 / 1000, info.url,
          none, buildNumber⟩
    | .error e => some ⟨false, none, 0, none, some ("获取构建信息失败: " ++ e), buildNumber⟩

/-- `true` iff an observation is a successful fetch reporting
`building = true` (the build still running). -/
def isBuildingObs : BuildInfoFetch → Bool
  | .ok info => info.building.getD false
  | .error _ => false

/-- Result dict of `trigger_build_and_wait_result_improved`
(jenkins_upload_build.py:1007-1120).  Each Python return dict populates a
subset of these keys; absent keys are `none`.  `duration` is in seconds. -/
structure TriggerResult where
  success : Bool
  status : Option String
  message : Option String
  error : Option String
  buildNumber : Option Nat
  queueItemNumber : Option Nat
  duration : Option Nat
  url : Option String
  consoleOutput : Option String
deriving DecidableEq

/-- Python `build_result or "UNKNOWN"`: `None` and `""` are falsy. -/
def orUnknown : Option String → String
  | some s => if s = "" then "UNKNOWN" else s
  | none => "UNKNOWN"

/-- Python `f"...{build_result}"` on an `Optional[str]`: `str(None)` is
`"None"`. -/
def strOfOptStr : Option String → String
  | some s => s
  | none => "None"

/-- Result assembly of `trigger_build_and_wait_result_improved` after the
completion wait returned (jenkins_upload_build.py:1057-1117): on
`result["success"]`, classify `result["result"]` into
SUCCESS / FAILURE / ABORTED / other (only SUCCESS maps to `success=True`),
attaching build number, queue item number, duration, url and the fetched
console output; otherwise a failure record with
`result.get("error", "构建失败")`. -/
def classifyImproved (wr : WaitLogsResult) (n queueItem : Nat)
    (consoleOut : String) : TriggerResult :=
  if wr.success then
    match wr.result with
    | some "SUCCESS" =>
        ⟨true, some "SUCCESS", some "构建成功", none, some n, some queueItem,
          some wr.duration, wr.url, some consoleOut⟩
    | some "FAILURE" =>
        ⟨false, some "FAILURE", some "构建失败", none, some n, some queueItem,
          some wr.duration, wr.url, some consoleOut⟩
    | some "ABORTED" =>
        ⟨false, some "ABORTED", some "构建被中止", none, some n, some queueItem,
          some wr.duration, wr.url, some consoleOut⟩
    | other =>
        ⟨false, some (orUnknown other), some ("构建结束，状态: " ++ strOfOptStr other),
          none, some n, some queueItem, some wr.duration, wr.url, some consoleOut⟩
  else
    ⟨false, none, none, some (wr.error.getD "构建失败"), some n, some queueItem,
      none, none, none⟩

/-- `trigger_build_and_wait_result_improved` (jenkins_upload_build.py:
1007-1120).  `queueItem` is what `build_job` returned; `queueResp` feeds the
queue-resolution polls, `status`/`console`/`postQuery` the completion wait,
`consoleOut` the `get_console_output` fetch.  The second component of the
returned pair records whether the Completion Waiter
(`wait_for_build_complete`) was invoked.  Steps: job-existence check →
trigger → `wait_for_build_start_by_queue` (default `max_wait = 120`); if it
yields no build number, return `{"success": False, "error":
"等待构建开始超时或失败"}` without invoking the waiter; otherwise run
`wait_for_build_complete(..., show_logs=True)` and classify.  `none` = the
waiter's unbounded loop outran its fuel. -/
def trigger_build_and_wait_result_improved (jobName : String) (jobExists : Bool)
    (queueItem : Nat) (queueResp : Nat → QueueHttp) (status : Nat → BuildInfoFetch)
    (console : Nat → Option String) (postQuery : BuildInfoFetch)
    (consoleOut : String) (fuel : Nat) : Option (TriggerResult × Bool) :=
  if !jobExists then
    some (⟨false, none, none, some ("Jenkins 任务 \"" ++ jobName ++ "\" 不存在"),
      none, none, none, none, none⟩, false)
  else
    match (wait_for_build_start_by_queue queueResp 120).1 with
    | none =>
        some (⟨false, none, none, some "等待构建开始超时或失败",
          none, none, none, none, none⟩, false)
    | some n =>
      match wait_for_build_complete_logs status console postQuery n fuel with
      | none => none
      | some wr => some (classifyImproved wr n queueItem consoleOut, true)

/-- A network request issued by the upload entry points (the calls the
claims distinguish; further calls made after submission are abstracted as
lists of these). -/
inductive NetCall where
  | jobExistsCheck
  | uploadPost
  | getBuildInfo
deriving DecidableEq

/-- The `success`/`message` core of the dicts returned by `upload_and_build`
and `upload_and_build_with_queue_api` (other keys carry no control-flow
information). -/
structure UploadResult where
  success : Bool
  message : String
deriving DecidableEq

/-- `upload_and_build` (jenkins_upload_build.py:87-172), with the trace of
network requests it issues.  Order of operations: `job_exists` (network) →
local-file existence check → multipart POST.  `postStatus` is the POST's
HTTP status; `startBuild` is what `wait_for_build_start` resolves (its own
internal requests abstracted as `startCalls`). -/
def upload_and_build (jobName filePath : String) (jobExists fileExists : Bool)
    (postStatus : Nat) (startBuild : Option Nat) (startCalls : List NetCall) :
    UploadResult × List NetCall :=
  if !jobExists then
    (⟨false, "Jenkins 任务 \"" ++ jobName ++ "\" 不存在"⟩, [.jobExistsCheck])
  else if !fileExists then
    (⟨false, "上传文件不存在: " ++ filePath⟩, [.jobExistsCheck])
  else if postStatus = 200 ∨ postStatus = 201 then
    match startBuild with
    | some _ =>
        (⟨true, "构建触发成功"⟩,
          [.jobExistsCheck, .uploadPost] ++ startCalls ++ [.getBuildInfo])
    | none =>
        (⟨true, "构建已触发，但未能获取构建号"⟩,
          [.jobExistsCheck, .uploadPost] ++ startCalls)
  else (⟨false, "HTTP 请求失败: " ++ toString postStatus⟩, [.jobExistsCheck, .uploadPost])

/-- `upload_and_build_with_queue_api` (jenkins_upload_build.py:174-311): the
same job-existence check → local-file check → multipart POST prefix; `tail`
abstracts everything after the POST is issued (Location-header parsing,
queue resolution, fallbacks — lines 242-311) together with the network
requests made there. -/
def upload_and_build_with_queue_api (jobName filePath : String)
    (jobExists fileExists : Bool) (tail : UploadResult × List NetCall) :
    UploadResult × List NetCall :=
  if !jobExists then
    (⟨false, "Jenkins 任务 \"" ++ jobName ++ "\" 不存在"⟩, [.jobExistsCheck])
  else if !fileExists then
    (⟨false, "上传文件不存在: " ++ filePath⟩, [.jobExistsCheck])
  else (tail.1, .jobExistsCheck :: .uploadPost :: tail.2)

/-- A queue response meaning "still queued": HTTP 200, `executable` null. -/
def stillQueuedResp : QueueHttp := .response 200 ⟨none⟩

/-- A queue response meaning "build started as number `n`". -/
def startedResp (n : Nat) : QueueHttp := .response 200 ⟨some ⟨some n, none⟩⟩

/-- Simulated sequence for C1: five "still queued" observations, then every
later poll reports `executable.number = 42`. -/
def c1resp : Nat → QueueHttp := fun i => if i < 5 then stillQueuedResp else startedResp 42

end HarborJenkins

open HarborJenkins

/-- C1: with five "still queued" (HTTP 200, `executable` null) observations
followed by an HTTP 200 observation carrying `executable.number = 42`,
`wait_for_build_start_by_queue` (both the jenkins_upload_build.py and the
jenkins_github_build.py variant, at their default `max_wait = 120`) returns
build number 42, after exactly 6 polls — i.e. immediately on the 6th poll,
the first that shows `executable.number`. -/
theorem c1_queue_resolution_returns_42_on_sixth_poll :
    wait_for_build_start_by_queue c1resp 120 = (some 42, 6) ∧
    GithubBuild.wait_for_build_start_by_queue c1resp 120 = (some 42, 6) := by
  constructor <;> decide

/-- C3: if the very first poll of the queue endpoint observes HTTP 404,
`wait_for_build_start_by_queue` returns `none` (unresolved) after exactly one
poll — the 404 is not retried and the loop does not run on towards
`max_wait` (here the default 120). -/
theorem c3_queue_resolution_404_unresolved_immediately :
    wait_for_build_start_by_queue (fun _ => .response 404 ⟨none⟩) 120 = (none, 1) := by
  decide

/-- Helper: one console-tail step never moves the cursor backwards. -/
theorem consoleTailStep_le (c : Nat) (t : String) : c ≤ (consoleTailStep c t).2 := by
  unfold consoleTailStep
  by_cases h : t.drop c = ""
  · simp [h]
  · simp only [h, ne_eq, not_false_eq_true, if_true]
    by_contra hlt
    push_neg at hlt
    apply h
    apply String.ext
    have : t.1.drop c = [] := List.drop_eq_nil_of_le (Nat.le_of_lt hlt)
    simpa using this

/-- Helper: the cursor value after one monitor iteration (console fetch may
have raised). -/
theorem cursor_update_le (c : Nat) (o : Option String) :
    c ≤ (match o with | none => c | some t => (consoleTailStep c t).2) := by
  cases o with
  | none => exact Nat.le_refl c
  | some t => exact consoleTailStep_le c t

/-- Helper: across a whole `monitor_build` loop run that terminated, the
final `last_log_position` is at least the initial one. -/
theorem monitorLoop_cursor_mono (status : Nat → BuildInfoFetch)
    (console : Nat → Option String) :
    ∀ fuel i cursor cf out,
      monitorLoop status console i cursor cf fuel = some out →
      cursor ≤ out.finalCursor := by
  intro fuel
  induction fuel with
  | zero => intro i c cf out h; simp [monitorLoop] at h
  | succ n ih =>
    intro i c cf out h
    unfold monitorLoop at h
    cases hst : get_build_status (status i) with
    | err m =>
      rw [hst] at h
      cases h
      exact Nat.le_refl c
    | ok building result d u ts de =>
      rw [hst] at h
      dsimp only at h
      cases building with
      | true =>
        exact Nat.le_trans (cursor_update_le c (console i)) (ih _ _ _ _ h)
      | false =>
        cases h
        exact cursor_update_le c (console i)

/-- Helper: while every status observation reports `building = true`, the
`monitor_build` loop never exits, whatever the fuel. -/
theorem monitorLoop_runs_forever_of_building (status : Nat → BuildInfoFetch)
    (console : Nat → Option String) (h : ∀ i, isBuildingObs (status i) = true) :
    ∀ fuel i cursor cf, monitorLoop status console i cursor cf fuel = none := by
  intro fuel
  induction fuel with
  | zero => intro i c cf; rfl
  | succ n ih =>
    intro i c cf
    have hb := h i
    cases hst : status i with
    | error e => rw [hst] at hb; simp [isBuildingObs] at hb
    | ok info =>
      rw [hst] at hb
      simp only [isBuildingObs] at hb
      unfold monitorLoop
      rw [hst]
      simp [get_build_status, hb, ih]

/-- Helper: while every in-deadline status observation reports
`building = true`, the status-only wait returns the timeout record. -/
theorem waitCompleteLoop_timeout_of_building (status : Nat → BuildInfoFetch)
    (bn mw : Nat) (h : ∀ j, 10 * j < mw → isBuildingObs (status j) = true) :
    ∀ fuel i, (waitCompleteLoop status bn mw i fuel).1 = .timeout mw bn := by
  intro fuel
  induction fuel with
  | zero => intro i; rfl
  | succ n ih =>
    intro i
    unfold waitCompleteLoop
    by_cases hd : 10 * i < mw
    · have hb := h i hd
      cases hst : status i with
      | error e => rw [hst] at hb; simp [isBuildingObs] at hb
      | ok info =>
        rw [hst] at hb
        simp only [isBuildingObs] at hb
        simp [hd, hst, hb, ih]
    · simp [hd]

/-- Helper: the status-only wait never polls past the deadline: starting
from iteration `i` the poll count stays below `max i ⌈mw/10⌉`. -/
theorem waitCompleteLoop_polls_le (status : Nat → BuildInfoFetch) (bn mw : Nat) :
    ∀ fuel i, (waitCompleteLoop status bn mw i fuel).2 ≤ max i ((mw + 9) / 10) := by
  intro fuel
  induction fuel with
  | zero => intro i; exact le_max_left _ _
  | succ n ih =>
    intro i
    unfold waitCompleteLoop
    by_cases hd : 10 * i < mw
    · have hi : i + 1 ≤ (mw + 9) / 10 := by omega
      have hstep : ∀ x : WaitCompleteResult × Nat,
          x.2 ≤ max (i+1) ((mw + 9) / 10) → x.2 ≤ max i ((mw + 9) / 10) := by
        intro x hx
        calc x.2 ≤ max (i+1) ((mw + 9) / 10) := hx
          _ = (mw + 9) / 10 := Nat.max_eq_right hi
          _ ≤ max i ((mw + 9) / 10) := le_max_right _ _
      cases hst : status i with
      | error e => simpa [hd, hst] using hstep _ (ih (i+1))
      | ok info =>
        by_cases hb : info.building.getD false
        · simpa [hd, hst, hb] using hstep _ (ih (i+1))
        · have : i + 1 ≤ max i ((mw + 9) / 10) :=
            Nat.le_trans hi (le_max_right _ _)
          simpa [hd, hst, hb] using this
    · simp [hd]

/-- C2: on the status sequence [building=true]×3 then [building=false,
result="SUCCESS"], `monitor_build` terminates reporting success on the 4th
poll, having attempted a console-tail fetch in each of the 4 iterations —
including one final flush in the completing iteration — and the returned
value is frozen: it is the same for every continuation `rest` of the
response sequence (re-querying the completed build afterwards cannot change
it) and any remaining fuel. -/
theorem c2_monitor_build_success_on_fourth_poll (rest : Nat → BuildInfoFetch)
    (console : Nat → Option String) (fuel : Nat) :
    ∃ out, monitor_build (c2status rest) console (fuel + 4) = some out ∧
      out.success = true ∧ out.buildResult = some "SUCCESS" ∧ out.polls = 4 ∧
      out.consoleFetches = 4 ∧ out.exitOnError = false :=
  ⟨_, rfl, rfl, rfl, rfl, rfl, rfl⟩

/-- C4: (status-only mode) if every observation within the wall-clock
deadline `mw` reports `building = true`, `wait_for_build_complete` with
`show_logs=False` returns the timeout record (`success = false` with the
timeout error), and it makes no poll beyond the deadline (at most
`⌈mw/10⌉` polls); (log-streaming mode) `wait_for_build_complete` with
`show_logs=True` enforces no deadline: while `building` stays true its loop
never exits, whatever fuel it is given. -/
theorem c4_deadline_only_in_status_only_mode :
    (∀ status bn mw, (∀ j, 10 * j < mw → isBuildingObs (status j) = true) →
      (wait_for_build_complete_status_only status bn mw).1 = .timeout mw bn ∧
      (wait_for_build_complete_status_only status bn mw).1.success = false ∧
      (wait_for_build_complete_status_only status bn mw).2 ≤ (mw + 9) / 10) ∧
    (∀ status console postQuery bn fuel,
      (∀ i, isBuildingObs (status i) = true) →
      wait_for_build_complete_logs status console postQuery bn fuel = none) := by
  constructor
  · intro status bn mw h
    have h1 := waitCompleteLoop_timeout_of_building status bn mw h mw 0
    refine ⟨h1, ?_, ?_⟩
    · show (waitCompleteLoop status bn mw 0 mw).1.success = false
      rw [h1]
      rfl
    · have h2 := waitCompleteLoop_polls_le status bn mw mw 0
      simpa using h2
  · intro status console postQuery bn fuel h
    unfold wait_for_build_complete_logs monitor_build
    rw [monitorLoop_runs_forever_of_building status console h fuel 0 0 0]

/-- Witness for C4 at a concrete input: constantly-building statuses, a
20-second deadline and build number 5 in status-only mode; fuel 6 in
log-streaming mode. -/
theorem c4_deadline_witness :
    ((wait_for_build_complete_status_only (fun _ => buildingInfo) 5 20).1 =
        .timeout 20 5 ∧
      (wait_for_build_complete_status_only (fun _ => buildingInfo) 5 20).1.success =
        false ∧
      (wait_for_build_complete_status_only (fun _ => buildingInfo) 5 20).2 ≤
        (20 + 9) / 10) ∧
    wait_for_build_complete_logs (fun _ => buildingInfo) (fun _ => none)
      buildingInfo 5 6 = none :=
  ⟨c4_deadline_only_in_status_only_mode.1 (fun _ => buildingInfo) 5 20
      (fun _ _ => rfl),
   c4_deadline_only_in_status_only_mode.2 (fun _ => buildingInfo) (fun _ => none)
      buildingInfo 5 6 (fun _ => rfl)⟩

/-- C5 counterexample: in log-streaming mode the loop does NOT continue
polling past a transport/API error.  With the very first `get_build_status`
fetch failing, `monitor_build` terminates at once (the `break` at
jenkins_upload_build.py:393): it returns after exactly 1 poll, with
`exitOnError = true`, no console flush, and a `false` (failure) return —
refuting the claim that in both modes such an error is transient and the
wait does not terminate because of it. -/
theorem c5_counterexample_monitor_breaks_on_status_error :
    monitor_build (fun _ => .error "connection refused") (fun _ => none) 5 =
      some ⟨false, none, true, 1, 0, 0⟩ := by
  decide

/-- Helper: the one-step unfolding of `waitCompleteLoop` at positive fuel
(stated once so later proofs can rewrite with it). -/
theorem waitCompleteLoop_succ (status : Nat → BuildInfoFetch) (bn mw i fuel : Nat) :
    waitCompleteLoop status bn mw i (fuel+1) =
      (if 10 * i < mw then
        match status i with
        | .ok info =>
          if info.building.getD false then waitCompleteLoop status bn mw (i+1) fuel
          else
            (.done info.result (info.duration.getD 0 / 1000) info.url info.timestamp
              (info.description.getD "") bn, i+1)
        | .error _ => waitCompleteLoop status bn mw (i+1) fuel
      else (.timeout mw bn, i)) := by
  rw [waitCompleteLoop]

/-- C5 amended: a transport/API error while fetching build status is treated
as transient only in status-only mode (`wait_for_build_complete`,
`show_logs=False`), where the exception is logged and polling continues —
an error observed on the first poll followed by a completed build on the
second yields that build's completed record after 2 polls; in log-streaming
mode (`monitor_build`) a failed status fetch terminates the monitoring loop
immediately with a failure return after that single poll. -/
theorem c5_amended_error_transient_only_in_status_only_mode :
    (∀ status e info, status 0 = .error e → status 1 = .ok info →
      info.building.getD false = false →
      wait_for_build_complete_status_only status 7 1800 =
        (.done info.result (info.duration.getD 0 / 1000) info.url info.timestamp
          (info.description.getD "") 7, 2)) ∧
    (∀ e status console cursor cf i fuel, status i = .error e →
      monitorLoop status console i cursor cf (fuel+1) =
        some ⟨false, none, true, i+1, cf, cursor⟩) := by
  constructor
  · intro status e info h0 h1 hb
    show waitCompleteLoop status 7 1800 0 1800 = _
    rw [show (1800:Nat) = 1798 + 1 + 1 from rfl]
    rw [waitCompleteLoop_succ, waitCompleteLoop_succ]
    simp [h0, h1, hb]
  · intro e status console cursor cf i fuel h
    unfold monitorLoop
    rw [h]
    rfl

/-- Witness for C5 (amended), applying the amended theorem at concrete
inputs: an error then a completed FAILURE build in status-only mode, and an
all-errors status stream in log-streaming mode. -/
theorem c5_amended_witness :
    wait_for_build_complete_status_only
        (fun i => if i = 0 then .error "boom" else doneInfo "FAILURE") 7 1800 =
      (.done (some "FAILURE") 12 (some "http://j/job/x/7/") (some 1) "" 7, 2) ∧
    monitorLoop (fun _ => .error "boom") (fun _ => none) 0 0 0 3 =
      some ⟨false, none, true, 1, 0, 0⟩ :=
  ⟨c5_amended_error_transient_only_in_status_only_mode.1
      (fun i => if i = 0 then .error "boom" else doneInfo "FAILURE") "boom"
      ⟨some false, some "FAILURE", some 12000, some "http://j/job/x/7/", some 1, some ""⟩
      rfl rfl rfl,
   c5_amended_error_transient_only_in_status_only_mode.2 "boom"
      (fun _ => .error "boom") (fun _ => none) 0 0 0 2 rfl⟩

/-- C6 counterexample: the legacy `upload_and_build` path violates the
claim — when `wait_for_build_start` obtains no build number, it returns
`{"success": True, "message": "构建已触发，但未能获取构建号"}` (lines 157-162),
i.e. `success` is NOT false on a failed resolution. -/
theorem c6_counterexample_legacy_upload_reports_success_without_build_number :
    (upload_and_build "job-a" "/tmp/app.zip" true true 201 none []).1 =
      ⟨true, "构建已触发，但未能获取构建号"⟩ ∧
    (upload_and_build "job-a" "/tmp/app.zip" true true 201 none []).1.success ≠
      false := by
  decide

/-- C6 amended: in `trigger_build_and_wait_result_improved`, whenever queue
resolution (`wait_for_build_start_by_queue`) yields no build number, the
operation returns `{"success": False, "error": "等待构建开始超时或失败"}` and
the Completion Waiter is not invoked (flag `false`); the result carries no
build number, whereas every result assembled after the waiter ran carries
`build_number = some n` — so there a resolution failure is distinguishable
from a build that ran and failed.  The legacy `upload_and_build`, however,
reports `success=True` with message "构建已触发，但未能获取构建号" when no
build number is obtained. -/
theorem c6_resolution_failure_skips_completion_waiter :
    (∀ jobName queueItem queueResp status console postQuery consoleOut fuel,
      (wait_for_build_start_by_queue queueResp 120).1 = none →
      trigger_build_and_wait_result_improved jobName true queueItem queueResp
          status console postQuery consoleOut fuel =
        some (⟨false, none, none, some "等待构建开始超时或失败",
          none, none, none, none, none⟩, false)) ∧
    (∀ wr n q co, (classifyImproved wr n q co).buildNumber = some n) ∧
    (∀ jobName filePath startCalls,
      (upload_and_build jobName filePath true true 201 none startCalls).1 =
        ⟨true, "构建已触发，但未能获取构建号"⟩) := by
  refine ⟨?_, ?_, ?_⟩
  · intro jobName queueItem queueResp status console postQuery consoleOut fuel h
    simp [trigger_build_and_wait_result_improved, h]
  · intro wr n q co
    unfold classifyImproved
    split
    · split <;> rfl
    · rfl
  · intro jobName filePath startCalls
    rfl

/-- Witness for C6 (amended) at a concrete input: an immediately-404 queue
endpoint (resolution fails on poll 1), a concrete ran-and-failed
classification carrying its build number, and the legacy path's
success-true report. -/
theorem c6_resolution_failure_witness :
    trigger_build_and_wait_result_improved "job-a" true 9
        (fun _ => .response 404 ⟨none⟩) (fun _ => buildingInfo) (fun _ => none)
        buildingInfo "" 3 =
      some (⟨false, none, none, some "等待构建开始超时或失败",
        none, none, none, none, none⟩, false) ∧
    (classifyImproved ⟨true, some "FAILURE", 12, none, none, 8⟩ 8 9 "log").buildNumber =
      some 8 :=
  ⟨c6_resolution_failure_skips_completion_waiter.1 "job-a" 9
      (fun _ => .response 404 ⟨none⟩) (fun _ => buildingInfo) (fun _ => none)
      buildingInfo "" 3 (by decide),
   c6_resolution_failure_skips_completion_waiter.2.1
      ⟨true, some "FAILURE", 12, none, none, 8⟩ 8 9 "log"⟩

/-- C7 counterexample: with an existing job and a missing local file,
`upload_and_build` does fail with the local-precondition error, but it has
already issued one network request — the `job_exists` check runs before the
local-file check — so "zero network requests are issued" is false. -/
theorem c7_counterexample_job_existence_call_precedes_file_check :
    (upload_and_build "job-a" "/tmp/app.zip" true false 201 none []).1 =
      ⟨false, "上传文件不存在: /tmp/app.zip"⟩ ∧
    (upload_and_build "job-a" "/tmp/app.zip" true false 201 none []).2 ≠ [] := by
  decide

/-- C7 amended: when the local artifact file is missing (and the job
exists), both upload entry points fail with the local-precondition error
before the submission is attempted: the network trace is exactly the
job-existence check — in particular the multipart upload POST is never
issued. -/
theorem c7_amended_file_checked_before_submission :
    ∀ jobName filePath postStatus startBuild startCalls tail,
      upload_and_build jobName filePath true false postStatus startBuild startCalls =
        (⟨false, "上传文件不存在: " ++ filePath⟩, [.jobExistsCheck]) ∧
      upload_and_build_with_queue_api jobName filePath true false tail =
        (⟨false, "上传文件不存在: " ++ filePath⟩, [.jobExistsCheck]) := by
  intro jobName filePath postStatus startBuild startCalls tail
  constructor <;> rfl

/-- C8: the console tailer returns exactly the suffix of the cumulative
console text beyond the cursor; when that suffix is nonempty the cursor
advances to the total length; concretely, cumulative text "A\nB\n" at
cursor 0 yields ("A\nB\n", 4) and "A\nB\nC\n" at cursor 4 yields
("C\n", 6); the cursor (a `Nat`, hence never negative) never decreases in a
step nor across a whole monitoring session. -/
theorem c8_console_tailer_suffix_and_cursor :
    consoleTailStep 0 "A\nB\n" = ("A\nB\n", 4) ∧
    consoleTailStep 4 "A\nB\nC\n" = ("C\n", 6) ∧
    (∀ c t, (consoleTailStep c t).1 = t.drop c) ∧
    (∀ c t, t.drop c ≠ "" → (consoleTailStep c t).2 = t.length) ∧
    (∀ c t, c ≤ (consoleTailStep c t).2) ∧
    (∀ status console fuel i cursor cf out,
      monitorLoop status console i cursor cf fuel = some out →
      cursor ≤ out.finalCursor) := by
  refine ⟨by decide, by decide, ?_, ?_, consoleTailStep_le, ?_⟩
  · intro c t
    simp only [consoleTailStep]
    split <;> rfl
  · intro c t h
    simp [consoleTailStep, h]
  · intro status console fuel i cursor cf out h
    exact monitorLoop_cursor_mono status console fuel i cursor cf out h

/-- Witness for C8 at concrete inputs: a nonempty suffix advances the cursor
to the text length, and a terminated one-poll monitoring session ends with
a cursor no smaller than the initial 0. -/
theorem c8_console_tailer_witness :
    (consoleTailStep 2 "ABCD").2 = "ABCD".length ∧
    (0:Nat) ≤ (⟨true, some "SUCCESS", false, 1, 1, 1⟩ : MonitorOutcome).finalCursor :=
  ⟨c8_console_tailer_suffix_and_cursor.2.2.2.1 2 "ABCD" (by decide),
   c8_console_tailer_suffix_and_cursor.2.2.2.2.2 (fun _ => doneInfo "SUCCESS")
      (fun _ => some "A") 1 0 0 0 ⟨true, some "SUCCESS", false, 1, 1, 1⟩ (by decide)⟩

/-- C9: when the server's build-info JSON lacks the `building` key,
`get_build_status` reports `success=True` with `building=False` (duration
defaulting to 0), and the log-streaming completion wait classifies the build
as terminal on that very poll (1 poll, no error exit), whatever the server
would have answered to later re-queries. -/
theorem c9_missing_building_key_is_terminal (info : BuildInfoJson)
    (h : info.building = none) :
    get_build_status (.ok info) =
      .ok false info.result (info.duration.getD 0) info.url info.timestamp
        (info.description.getD "") ∧
    ∀ (rest : Nat → BuildInfoFetch) (console : Nat → Option String) (fuel : Nat),
      ∃ out,
      monitor_build (fun i => if i = 0 then .ok info else rest i) console (fuel+1) =
        some out ∧ out.polls = 1 ∧ out.exitOnError = false ∧
        out.buildResult = info.result := by
  constructor
  · simp [get_build_status, h]
  · intro rest console fuel
    cases hc : console 0 with
    | none =>
        exact ⟨⟨info.result == some "SUCCESS", info.result, false, 1, 1, 0⟩,
          by unfold monitor_build monitorLoop; simp [get_build_status, h, hc],
          rfl, rfl, rfl⟩
    | some t =>
        exact ⟨⟨info.result == some "SUCCESS", info.result, false, 1, 1,
            (consoleTailStep 0 t).2⟩,
          by unfold monitor_build monitorLoop; simp [get_build_status, h, hc],
          rfl, rfl, rfl⟩

/-- Witness for C9 at a concrete input: a build-info response with no
`building` key and result FAILURE is terminal on poll 1. -/
theorem c9_missing_building_key_witness :
    get_build_status (.ok ⟨none, some "FAILURE", none, none, none, none⟩) =
      .ok false (some "FAILURE") 0 none none "" ∧
    ∃ out, monitor_build
        (fun i => if i = 0 then .ok ⟨none, some "FAILURE", none, none, none, none⟩
          else doneInfo "X") (fun _ => none) 3 = some out ∧
      out.polls = 1 ∧ out.exitOnError = false ∧ out.buildResult = some "FAILURE" :=
  ⟨(c9_missing_building_key_is_terminal ⟨none, some "FAILURE", none, none, none, none⟩
      rfl).1,
   (c9_missing_building_key_is_terminal ⟨none, some "FAILURE", none, none, none, none⟩
      rfl).2 (fun _ => doneInfo "X") (fun _ => none) 2⟩

/-- Helper: if the first `building = false` (successful) observation occurs
at poll `k` within the deadline, the status-only loop returns that
observation's completed record after `k+1` polls. -/
theorem waitCompleteLoop_done_at (status : Nat → BuildInfoFetch) (bn mw k : Nat)
    (info : BuildInfoJson) (hk : 10 * k < mw) (hsk : status k = .ok info)
    (hb : info.building.getD false = false) :
    ∀ fuel i, i ≤ k → k + 1 ≤ i + fuel →
      (∀ j, i ≤ j → j < k → isBuildingObs (status j) = true) →
      waitCompleteLoop status bn mw i fuel =
        (.done info.result (info.duration.getD 0 / 1000) info.url info.timestamp
          (info.description.getD "") bn, k+1) := by
  intro fuel
  induction fuel with
  | zero => intro i h1 h2 _; omega
  | succ n ih =>
    intro i h1 h2 hpre
    rcases Nat.eq_or_lt_of_le h1 with heq | hlt
    · subst heq
      rw [waitCompleteLoop_succ]
      simp [hk, hsk, hb]
    · have hb2 := hpre i (Nat.le_refl i) hlt
      have hd : 10 * i < mw := by omega
      cases hs : status i with
      | error e => rw [hs] at hb2; simp [isBuildingObs] at hb2
      | ok info2 =>
        rw [hs] at hb2
        simp only [isBuildingObs] at hb2
        rw [waitCompleteLoop_succ]
        simp only [hd, if_true, hs, hb2]
        exact ih (i+1) hlt (by omega) (fun j hj1 hj2 => hpre j (by omega) hj2)

/-- C10: in status-only mode, if the first successful `building = false`
observation occurs at any poll `k` within the deadline (after any prefix of
`building = true` observations), `wait_for_build_complete` returns
`success = true` regardless of the build's remote result (FAILURE and
ABORTED included — the result is merely carried in the `result` field);
whereas in log-streaming mode the flag returned by `monitor_build` equals
`result == "SUCCESS"`.  The meaning of the success flag thus differs
between the modes. -/
theorem c10_success_flag_meaning_differs_between_modes :
    (∀ status k info bn mw,
      (∀ j, j < k → isBuildingObs (status j) = true) →
      10 * k < mw → status k = .ok info → info.building.getD false = false →
      (wait_for_build_complete_status_only status bn mw).1 =
        .done info.result (info.duration.getD 0 / 1000) info.url info.timestamp
          (info.description.getD "") bn ∧
      (wait_for_build_complete_status_only status bn mw).1.success = true) ∧
    (∀ r fuel, ∃ out,
      monitor_build (fun _ => doneInfo r) (fun _ => none) (fuel+1) = some out ∧
      out.success = (r == "SUCCESS")) := by
  constructor
  · intro status k info bn mw hpre hk hsk hb
    have h := waitCompleteLoop_done_at status bn mw k info hk hsk hb mw 0
      (Nat.zero_le k) (by omega) (fun j _ hj2 => hpre j hj2)
    constructor
    · show (waitCompleteLoop status bn mw 0 mw).1 = _
      rw [h]
    · show (waitCompleteLoop status bn mw 0 mw).1.success = true
      rw [h]
      rfl
  · intro r fuel
    exact ⟨⟨some r == some "SUCCESS", some r, false, 1, 1, 0⟩,
      by unfold monitor_build monitorLoop; simp [get_build_status, doneInfo], rfl⟩

/-- Witness for C10 at a concrete input: two `building = true` polls, then an
ABORTED completion at poll 3 within the default 1800s deadline — the
status-only mode reports `success = true` while log-streaming mode returns
`"ABORTED" == "SUCCESS"` (false). -/
theorem c10_success_flag_witness :
    ((wait_for_build_complete_status_only
        (fun i => if i < 2 then buildingInfo else doneInfo "ABORTED") 7 1800).1 =
      .done (some "ABORTED") 12 (some "http://j/job/x/7/") (some 1) "" 7 ∧
     (wait_for_build_complete_status_only
        (fun i => if i < 2 then buildingInfo else doneInfo "ABORTED") 7 1800).1.success =
      true) ∧
    (∃ out, monitor_build (fun _ => doneInfo "ABORTED") (fun _ => none) 1 = some out ∧
      out.success = ("ABORTED" == "SUCCESS")) :=
  ⟨c10_success_flag_meaning_differs_between_modes.1
      (fun i => if i < 2 then buildingInfo else doneInfo "ABORTED") 2
      ⟨some false, some "ABORTED", some 12000, some "http://j/job/x/7/", some 1, some ""⟩
      7 1800 (fun j hj => by simp [hj, isBuildingObs, buildingInfo])
      (by norm_num) rfl rfl,
   c10_success_flag_meaning_differs_between_modes.2 "ABORTED" 0⟩
